import Mathlib

/-!
Verification of the Shop API backend (`src/main.py`, `src/schemas.py`): a
FastAPI CRUD façade over a document store.  Documents are modelled as
association lists of string keys and JSON-like values, floats as rationals,
and the pydantic schema validation as explicit parsing functions.  The
document-store accessor (`database.py`, not part of the sources) is modelled
from the specification.
-/

namespace ShopApi

/-- JSON-like field values of a stored document.  `oid` is the store-native
opaque identifier value (a MongoDB ObjectId in the original). -/
inductive Value where
  | str (s : String)
  | num (x : Rat)
  | bool (b : Bool)
  | null
  | arr (vs : List Value)
  | obj (fields : List (String × Value))
  | oid (s : String)

/-- A document: an ordered association list of fields, as a Python dict. -/
abbrev Doc := List (String × Value)

/-- Value of field `k` in document `d` (first occurrence). -/
def getF (d : Doc) (k : String) : Option Value :=
  List.lookup k d

/-- Python `str(v)` for identifier values: the string form of a store identifier. -/
def strForm : Value → String
  | .oid s => s
  | .str s => s
  | _ => ""

/-- Python dict assignment `d[k] = v`: overwrite the existing key or append. -/
def setF (d : Doc) (k : String) (v : Value) : Doc :=
  bif d.any (fun p => p.1 == k) then
    d.map (fun p => bif p.1 == k then (k, v) else p)
  else
    d ++ [(k, v)]

/-- Source `main.py` lines 55-57 (and the identical loops in the other list
handlers): `if "_id" in d: d["id"] = str(d.pop("_id"))`. -/
def normalizeDoc (d : Doc) : Doc :=
  match getF d "_id" with
  | none => d
  | some v => setF (d.filter (fun p => !(p.1 == "_id"))) "id" (.str (strForm v))

/-! ## Query filters (`main.py` `list_products` query construction, and the
store-side matching semantics) -/

/-- One per-field condition of a store filter, as built by the handlers:
an exact equality match, a case-insensitive regex on a text field, or a
numeric range with optional inclusive bounds (`$gte`/`$lte`). -/
inductive Cond where
  | eqStr (s : String)
  | regexI (pat : String)
  | range (lo hi : Option Rat)
deriving DecidableEq

/-- A store filter: a conjunction of per-field conditions (a Python dict
keyed by field name). -/
abbrev Query := List (String × Cond)

/-- Is `pat` a prefix of `l`? (character lists) -/
def prefixB (pat l : List Char) : Bool :=
  List.isPrefixOf pat l

/-- Is `pat` an infix (contiguous substring) of `l`? -/
def substrB (pat : List Char) : List Char → Bool
  | [] => pat.isEmpty
  | c :: cs => prefixB pat (c :: cs) || substrB pat cs

/-- Lower-casing of one character (ASCII, the range the API's data
exercises). -/
def lowerChar (c : Char) : Char :=
  if 65 ≤ c.toNat ∧ c.toNat ≤ 90 then Char.ofNat (c.toNat + 32) else c

/-- Lower-casing of a string, character by character. -/
def lowerStr (s : String) : List Char :=
  s.data.map lowerChar

/-- Case-insensitive substring test: is `pat` a substring of `t`, ignoring
case? -/
def containsCI (t pat : String) : Bool :=
  substrB (lowerStr pat) (lowerStr t)

/-- Modelled from the spec: the store's evaluation of one condition against
one field value.  `database.py` is not among the sources; per §4.1 and §8 of
the spec, `text` search (`$regex` with option `i` on a plain pattern) is a
case-insensitive substring match, `min_price`/`max_price` (`$gte`/`$lte`)
are inclusive bounds, and the other filters are exact matches. -/
def condMatches : Cond → Value → Bool
  | .eqStr s, .str t => s == t
  | .eqStr _, _ => false
  | .regexI pat, .str t => containsCI t pat
  | .regexI _, _ => false
  | .range lo hi, .num x =>
      (match lo with | none => true | some a => decide (a ≤ x)) &&
      (match hi with | none => true | some b => decide (x ≤ b))
  | .range _ _, _ => false

/-- Modelled from the spec: a document matches a filter when every
per-field condition holds of the document's value at that field (a
conjunction; a document lacking the field does not match). -/
def docMatches (d : Doc) (query : Query) : Bool :=
  query.all (fun kc =>
    match getF d kc.1 with
    | some v => condMatches kc.2 v
    | none => false)

/-! ## Record definitions (`src/schemas.py`) -/

/-- Validation outcome: pydantic raises a `ValidationError` with a message,
or produces the validated model. -/
abbrev VResult (α : Type) := Except String α

/-- Required string field (pydantic `str = Field(...)`). -/
def reqStr (d : Doc) (k : String) : VResult String :=
  match getF d k with
  | some (.str s) => .ok s
  | some _ => .error (k ++ ": str type expected")
  | none => .error (k ++ ": field required")

/-- Optional string field (pydantic `Optional[str] = Field(None)`). -/
def optStr (d : Doc) (k : String) : VResult (Option String) :=
  match getF d k with
  | some (.str s) => .ok (some s)
  | some .null => .ok none
  | none => .ok none
  | some _ => .error (k ++ ": str type expected")

/-- Required float field (pydantic `float = Field(...)`). -/
def reqNum (d : Doc) (k : String) : VResult Rat :=
  match getF d k with
  | some (.num x) => .ok x
  | some _ => .error (k ++ ": value is not a valid float")
  | none => .error (k ++ ": field required")

/-- Required integer field (pydantic `int = Field(...)`). -/
def reqInt (d : Doc) (k : String) : VResult Int :=
  match getF d k with
  | some (.num x) => if x.den == 1 then .ok x.num else .error (k ++ ": value is not a valid integer")
  | some _ => .error (k ++ ": value is not a valid integer")
  | none => .error (k ++ ": field required")

/-- Boolean field with a default (pydantic `bool = Field(True)`). -/
def boolD (d : Doc) (k : String) (dflt : Bool) : VResult Bool :=
  match getF d k with
  | some (.bool b) => .ok b
  | some _ => .error (k ++ ": value could not be parsed to a boolean")
  | none => .ok dflt

/-- String field with a default (pydantic `str = Field("pending")`). -/
def strD (d : Doc) (k : String) (dflt : String) : VResult String :=
  match getF d k with
  | some (.str s) => .ok s
  | some _ => .error (k ++ ": str type expected")
  | none => .ok dflt

/-- Required list field. -/
def reqArr (d : Doc) (k : String) : VResult (List Value) :=
  match getF d k with
  | some (.arr vs) => .ok vs
  | some _ => .error (k ++ ": value is not a valid list")
  | none => .error (k ++ ": field required")

/-- Schema `schemas.py` `Product`: title, optional description, price ≥ 0,
category, optional brand and image, in_stock defaulting to true. -/
structure Product where
  title : String
  description : Option String
  price : Rat
  category : String
  brand : Option String
  image : Option String
  in_stock : Bool
deriving DecidableEq

/-- Validation of a raw payload against the `Product` schema
(`schemas.py` lines 33-44): required fields, types, and `price ≥ 0`
(`Field(..., ge=0)`). -/
def Product.validate (d : Doc) : VResult Product := do
  let title ← reqStr d "title"
  let description ← optStr d "description"
  let price ← reqNum d "price"
  if price < 0 then
    throw "price: ensure this value is greater than or equal to 0"
  let category ← reqStr d "category"
  let brand ← optStr d "brand"
  let image ← optStr d "image"
  let in_stock ← boolD d "in_stock" true
  pure { title, description, price, category, brand, image, in_stock }

/-- Serialization of an optional string, as pydantic's `.dict()`. -/
def optVal : Option String → Value
  | none => .null
  | some s => .str s

/-- The document inserted for a validated product (pydantic `.dict()`). -/
def Product.toDoc (p : Product) : Doc :=
  [("title", .str p.title), ("description", optVal p.description),
   ("price", .num p.price), ("category", .str p.category),
   ("brand", optVal p.brand), ("image", optVal p.image),
   ("in_stock", .bool p.in_stock)]

/-- Schema `schemas.py` `Category`: name and slug, both required strings. -/
structure Category where
  name : String
  slug : String
deriving DecidableEq

/-- Validation against the `Category` schema (`schemas.py` lines 28-31). -/
def Category.validate (d : Doc) : VResult Category := do
  let name ← reqStr d "name"
  let slug ← reqStr d "slug"
  pure { name, slug }

def Category.toDoc (c : Category) : Doc :=
  [("name", .str c.name), ("slug", .str c.slug)]

/-- Schema `schemas.py` `OrderItem`: product_id, title, price ≥ 0, quantity ≥ 1. -/
structure OrderItem where
  product_id : String
  title : String
  price : Rat
  quantity : Int
deriving DecidableEq

/-- Validation against the `OrderItem` schema (`schemas.py` lines 46-50):
`price ≥ 0` (`ge=0`) and `quantity ≥ 1` (`ge=1`). -/
def OrderItem.validate (d : Doc) : VResult OrderItem :=
  match reqStr d "product_id" with
  | .error e => .error e
  | .ok product_id =>
    match reqStr d "title" with
    | .error e => .error e
    | .ok title =>
      match reqNum d "price" with
      | .error e => .error e
      | .ok price =>
        if price < 0 then
          .error "price: ensure this value is greater than or equal to 0"
        else
          match reqInt d "quantity" with
          | .error e => .error e
          | .ok quantity =>
            if quantity < 1 then
              .error "quantity: ensure this value is greater than or equal to 1"
            else
              .ok { product_id, title, price, quantity }

def OrderItem.toDoc (i : OrderItem) : Doc :=
  [("product_id", .str i.product_id), ("title", .str i.title),
   ("price", .num i.price), ("quantity", .num (i.quantity : Rat))]

/-- Schema `schemas.py` `Order`: user_email, shipping_address, payment_method
(an unconstrained `str`; the field description documents "online | cod"),
status defaulting to "pending", a required list of `OrderItem`, total ≥ 0. -/
structure Order where
  user_email : String
  shipping_address : String
  payment_method : String
  status : String
  items : List OrderItem
  total : Rat
deriving DecidableEq

/-- Validation of each element of the `items` list against `OrderItem`. -/
def validateItems : List Value → VResult (List OrderItem)
  | [] => .ok []
  | .obj sub :: rest => do
      let i ← OrderItem.validate sub
      let rest ← validateItems rest
      pure (i :: rest)
  | _ :: _ => .error "items: value is not a valid dict"

/-- Validation against the `Order` schema (`schemas.py` lines 52-58),
including the nested item list. -/
def Order.validate (d : Doc) : VResult Order := do
  let user_email ← reqStr d "user_email"
  let shipping_address ← reqStr d "shipping_address"
  let payment_method ← reqStr d "payment_method"
  let status ← strD d "status" "pending"
  let rawItems ← reqArr d "items"
  let items ← validateItems rawItems
  let total ← reqNum d "total"
  if total < 0 then
    throw "total: ensure this value is greater than or equal to 0"
  pure { user_email, shipping_address, payment_method, status, items, total }

def Order.toDoc (o : Order) : Doc :=
  [("user_email", .str o.user_email),
   ("shipping_address", .str o.shipping_address),
   ("payment_method", .str o.payment_method), ("status", .str o.status),
   ("items", .arr (o.items.map (fun i => .obj i.toDoc))),
   ("total", .num o.total)]

/-- Schema `schemas.py` `Wishlist`: user_email and product_id, required strings. -/
structure Wishlist where
  user_email : String
  product_id : String
deriving DecidableEq

/-- Validation against the `Wishlist` schema (`schemas.py` lines 60-62). -/
def Wishlist.validate (d : Doc) : VResult Wishlist := do
  let user_email ← reqStr d "user_email"
  let product_id ← reqStr d "product_id"
  pure { user_email, product_id }

def Wishlist.toDoc (w : Wishlist) : Doc :=
  [("user_email", .str w.user_email), ("product_id", .str w.product_id)]

/-! ## Document store accessor (`database.py`, absent from the sources;
modelled from the spec §6: named collections with insert-one returning a
generated identifier, and find-with-filter-and-limit) -/

/-- The contents of the store: each named collection's list of documents. -/
def Store := String → List Doc

/-- The empty store: every collection empty. -/
def Store.empty : Store := fun _ => []

/-- Store-layer failures: the connection was never established
(StoreUnavailable). -/
inductive StoreError where
  | unavailable
deriving DecidableEq

/-- Modelled from the spec: `get_documents(collection, query, limit)` of
`database.py` — find-with-filter-and-limit over a named collection; when
the store connection was never established (`db is None`) the access fails
and the error surfaces to the endpoint (spec §6, §7 StoreUnavailable). -/
def get_documents (db : Option Store) (coll : String) (query : Query)
    (limit : Nat) : Except StoreError (List Doc) :=
  match db with
  | none => .error .unavailable
  | some st => .ok (((st coll).filter (fun d => docMatches d query)).take limit)

/-- Modelled from the spec: the identifier the store generates for the next
document of a collection — opaque, assigned at creation, never reused. -/
def genId (st : Store) (coll : String) : String :=
  toString (st coll).length

/-- Modelled from the spec: `create_document(collection, data)` of
`database.py` — insert-one of the validated model's fields, returning the
generated identifier; fails when the store connection was never
established.  The stored document carries the identifier in the
store-native `_id` field. -/
def create_document (db : Option Store) (coll : String) (doc : Doc) :
    Except StoreError (String × Store) :=
  match db with
  | none => .error .unavailable
  | some st =>
    let id := genId st coll
    .ok (id, fun c => if c == coll then st coll ++ [("_id", .oid id) :: doc] else st c)

/-! ## HTTP route handlers (`src/main.py`) -/

/-- An error response of an endpoint: a request-validation failure (FastAPI
answers 422), an explicitly raised `HTTPException`, or an uncaught
store-layer error (the framework answers 500). -/
inductive ApiError where
  | validation (detail : String)
  | http (status : Nat) (detail : String)
  | store (e : StoreError)
deriving DecidableEq

/-- The HTTP status code of an error response. -/
def ApiError.statusCode : ApiError → Nat
  | .validation _ => 422
  | .http s _ => s
  | .store _ => 500

/-- The HTTP status code of an endpoint outcome: 200 on success. -/
def respStatus {α : Type} : Except ApiError α → Nat
  | .ok _ => 200
  | .error e => e.statusCode

/-- The filter dict built by `list_products` (`main.py` lines 37-51):
`if q:` / `if category:` / `if brand:` add entries only for truthy
(present and non-empty) strings; `price_filter` gets `$gte` / `$lte`
entries for non-`None` bounds and is attached iff non-empty. -/
def buildProductQuery (q category brand : Option String)
    (min_price max_price : Option Rat) : Query :=
  (match q with
   | some s => if s ≠ "" then [("title", Cond.regexI s)] else []
   | none => []) ++
  (match category with
   | some s => if s ≠ "" then [("category", Cond.eqStr s)] else []
   | none => []) ++
  (match brand with
   | some s => if s ≠ "" then [("brand", Cond.eqStr s)] else []
   | none => []) ++
  (if min_price.isSome || max_price.isSome then
    [("price", Cond.range min_price max_price)]
   else [])

/-- Source `main.py` lines 31-58, `GET /api/products`: raise 500 when `db is None`;
build the filter from the present (truthy) parameters; fetch; normalize
identifiers. -/
def list_products (db : Option Store) (q category brand : Option String)
    (min_price max_price : Option Rat) (limit : Nat := 50) :
    Except ApiError (List Doc) :=
  match db with
  | none => .error (.http 500 "Database unavailable")
  | some st =>
    let query := buildProductQuery q category brand min_price max_price
    match get_documents (some st) "product" query limit with
    | .error e => .error (.store e)
    | .ok docs => .ok (docs.map normalizeDoc)

/-- Source `main.py` lines 63-66, `POST /api/products`: FastAPI validates the body
against `AddProductRequest` (= `Product`) before the handler runs; the
handler inserts the document and returns the new identifier. -/
def create_product (db : Option Store) (payload : Doc) :
    Except ApiError (String × Store) :=
  match Product.validate payload with
  | .error e => .error (.validation e)
  | .ok p =>
    match create_document db "product" p.toDoc with
    | .error e => .error (.store e)
    | .ok r => .ok r

/-- Source `main.py` lines 70-76, `GET /api/categories`: unfiltered fetch capped
at `limit`, identifiers normalized. -/
def list_categories (db : Option Store) (limit : Nat := 100) :
    Except ApiError (List Doc) :=
  match get_documents db "category" [] limit with
  | .error e => .error (.store e)
  | .ok docs => .ok (docs.map normalizeDoc)

/-- Source `main.py` lines 78-81, `POST /api/categories`. -/
def create_category (db : Option Store) (payload : Doc) :
    Except ApiError (String × Store) :=
  match Category.validate payload with
  | .error e => .error (.validation e)
  | .ok c =>
    match create_document db "category" c.toDoc with
    | .error e => .error (.store e)
    | .ok r => .ok r

/-- Source `main.py` lines 85-91, `GET /api/wishlist`: `user_email` is a required
query parameter (no default), so FastAPI rejects a request omitting it
before the handler runs; otherwise fetch by exact `user_email` match. -/
def get_wishlist (db : Option Store) (user_email : Option String)
    (limit : Nat := 100) : Except ApiError (List Doc) :=
  match user_email with
  | none => .error (.validation "user_email: field required")
  | some ue =>
    match get_documents db "wishlist" [("user_email", Cond.eqStr ue)] limit with
    | .error e => .error (.store e)
    | .ok docs => .ok (docs.map normalizeDoc)

/-- Source `main.py` lines 93-96, `POST /api/wishlist`. -/
def add_to_wishlist (db : Option Store) (payload : Doc) :
    Except ApiError (String × Store) :=
  match Wishlist.validate payload with
  | .error e => .error (.validation e)
  | .ok w =>
    match create_document db "wishlist" w.toDoc with
    | .error e => .error (.store e)
    | .ok r => .ok r

/-- Source `main.py` lines 100-106, `GET /api/orders`: required `user_email`,
fetch by exact match, identifiers normalized. -/
def list_orders (db : Option Store) (user_email : Option String)
    (limit : Nat := 50) : Except ApiError (List Doc) :=
  match user_email with
  | none => .error (.validation "user_email: field required")
  | some ue =>
    match get_documents db "order" [("user_email", Cond.eqStr ue)] limit with
    | .error e => .error (.store e)
    | .ok docs => .ok (docs.map normalizeDoc)

/-- Source `main.py` lines 108-111, `POST /api/orders`: validate the full `Order`
shape (nested items included), insert, return the identifier. -/
def create_order (db : Option Store) (payload : Doc) :
    Except ApiError (String × Store) :=
  match Order.validate payload with
  | .error e => .error (.validation e)
  | .ok o =>
    match create_document db "order" o.toDoc with
    | .error e => .error (.store e)
    | .ok r => .ok r

/-! ## Diagnostic endpoint (`main.py` `test_database`, lines 115-144) -/

/-- The live connection handle as the diagnostic sees it: a database name
(when the handle exposes one) and the outcome of `list_collection_names()`,
which either returns the collection names or raises with a message. -/
structure DiagStore where
  dbName : Option String
  listCollectionNames : Except String (List String)

/-- The diagnostic payload returned by `GET /test`. -/
structure TestResponse where
  backend : String
  database : String
  database_url : String
  database_name : String
  connection_status : String
  collections : List String
deriving DecidableEq

/-- Python `s[:50]`: the first 50 characters of a string. -/
def truncate50 (s : String) : String :=
  ⟨s.data.take 50⟩

/-- Source `main.py` lines 115-144, `GET /test`: build the diagnostic payload;
every store-access failure is caught and reported as a status string with
the error message truncated to 50 characters; the configuration fields
report only the presence of the environment values. -/
def test_database (db : Option DiagStore) (urlSet nameSet : Bool) :
    TestResponse :=
  let response : TestResponse := {
    backend := "✅ Running",
    database := "❌ Not Available",
    database_url := "",
    database_name := "",
    connection_status := "Not Connected",
    collections := [] }
  let response : TestResponse :=
    match db with
    | some d =>
      let response := { response with
        database := "✅ Available",
        database_url := "✅ Configured",
        database_name := (match d.dbName with
                          | some n => n
                          | none => "✅ Connected"),
        connection_status := "Connected" }
      match d.listCollectionNames with
      | .ok cols => { response with
          collections := cols.take 10,
          database := "✅ Connected & Working" }
      | .error e => { response with
          database := "⚠️  Connected but Error: " ++ truncate50 e }
    | none => { response with
        database := "⚠️  Available but not initialized" }
  { response with
    database_url := if urlSet then "✅ Set" else "❌ Not Set",
    database_name := if nameSet then "✅ Set" else "❌ Not Set" }

/-- The `/test` route as an endpoint outcome: the handler catches every
store failure itself, so the route always succeeds. -/
def test_database_route (db : Option DiagStore) (urlSet nameSet : Bool) :
    Except ApiError TestResponse :=
  .ok (test_database db urlSet nameSet)

/-! ## Association-list lemmas for identifier normalization -/

theorem lookup_cons_self (k : String) (v : Value) (t : Doc) :
    List.lookup k ((k, v) :: t) = some v := by
  simp [List.lookup]

theorem lookup_cons_ne (k : String) (p : String × Value) (t : Doc)
    (h : (k == p.1) = false) :
    List.lookup k (p :: t) = List.lookup k t := by
  simp [List.lookup, h]

theorem lookup_overwrite (d : Doc) (k : String) (v : Value)
    (h : d.any (fun p => p.1 == k) = true) :
    List.lookup k (d.map (fun p => bif p.1 == k then (k, v) else p)) = some v := by
  induction d with
  | nil => simp at h
  | cons p t ih =>
    simp only [List.any_cons, Bool.or_eq_true] at h
    by_cases hp : p.1 = k
    · have hpk : (p.1 == k) = true := by simpa using hp
      simp only [List.map, hpk, cond_true]
      exact lookup_cons_self k v _
    · have hpk : (p.1 == k) = false := by simpa using hp
      have ht : t.any (fun p => p.1 == k) = true := by
        rcases h with h | h
        · rw [hpk] at h; cases h
        · exact h
      have hkp : (k == p.1) = false := by
        simpa using fun hh => hp hh.symm
      simp only [List.map, hpk, cond_false]
      rw [lookup_cons_ne k p _ hkp]
      exact ih ht

theorem lookup_append_single_ne (d : Doc) (q k : String) (v : Value)
    (h : (q == k) = false) :
    List.lookup q (d ++ [(k, v)]) = List.lookup q d := by
  induction d with
  | nil => simp [List.lookup, h]
  | cons p t ih =>
    cases hqp : (q == p.1) with
    | true =>
      have hq : q = p.1 := by simpa using hqp
      subst hq
      simp [List.lookup]
    | false =>
      rw [List.cons_append, lookup_cons_ne q p _ hqp, lookup_cons_ne q p _ hqp]
      exact ih

theorem lookup_setF_self (d : Doc) (k : String) (v : Value) :
    List.lookup k (setF d k v) = some v := by
  unfold setF
  cases h : d.any (fun p => p.1 == k) with
  | true =>
    simp only [cond_true]
    exact lookup_overwrite d k v h
  | false =>
    simp only [cond_false]
    induction d with
    | nil => exact lookup_cons_self k v []
    | cons p t ih =>
      simp only [List.any_cons, Bool.or_eq_false_iff] at h
      have hkp : (k == p.1) = false := by
        have hp : (p.1 == k) = false := h.1
        simp only [beq_eq_false_iff_ne] at hp ⊢
        exact fun hh => hp hh.symm
      rw [List.cons_append, lookup_cons_ne k p _ hkp]
      exact ih h.2

theorem lookup_setF_ne (d : Doc) (k q : String) (v : Value) (h : q ≠ k) :
    List.lookup q (setF d k v) = List.lookup q d := by
  have hqk : (q == k) = false := by simpa using h
  unfold setF
  cases hany : d.any (fun p => p.1 == k) with
  | true =>
    simp only [cond_true]
    clear hany
    induction d with
    | nil => rfl
    | cons p t ih =>
      by_cases hp : p.1 = k
      · have hpk : (p.1 == k) = true := by simpa using hp
        have hqp : (q == p.1) = false := by rw [hp]; exact hqk
        simp only [List.map, hpk, cond_true]
        rw [lookup_cons_ne q (k, v) _ hqk, lookup_cons_ne q p _ hqp]
        exact ih
      · have hpk : (p.1 == k) = false := by simpa using hp
        simp only [List.map, hpk, cond_false]
        cases hqp : (q == p.1) with
        | true =>
          have hq : q = p.1 := by simpa using hqp
          subst hq
          simp [List.lookup]
        | false =>
          rw [lookup_cons_ne q p _ hqp, lookup_cons_ne q p _ hqp]
          exact ih
  | false =>
    simp only [cond_false]
    exact lookup_append_single_ne d q k v hqk

theorem lookup_filterKey_self (d : Doc) (x : String) :
    List.lookup x (d.filter (fun p => !(p.1 == x))) = none := by
  induction d with
  | nil => rfl
  | cons p t ih =>
    by_cases hp : p.1 = x
    · have hpx : (p.1 == x) = true := by simpa using hp
      simp only [List.filter, hpx, Bool.not_true]
      exact ih
    · have hpx : (p.1 == x) = false := by simpa using hp
      have hxp : (x == p.1) = false := by
        simpa using fun hh => hp hh.symm
      simp only [List.filter, hpx, Bool.not_false]
      rw [lookup_cons_ne x p _ hxp]
      exact ih

theorem lookup_filterKey_ne (d : Doc) (k x : String) (h : k ≠ x) :
    List.lookup k (d.filter (fun p => !(p.1 == x))) = List.lookup k d := by
  induction d with
  | nil => rfl
  | cons p t ih =>
    by_cases hp : p.1 = x
    · have hpx : (p.1 == x) = true := by simpa using hp
      have hkp : (k == p.1) = false := by
        rw [hp]; simpa using h
      simp only [List.filter, hpx, Bool.not_true]
      rw [lookup_cons_ne k p _ hkp]
      exact ih
    · have hpx : (p.1 == x) = false := by simpa using hp
      simp only [List.filter, hpx, Bool.not_false]
      cases hkp : (k == p.1) with
      | true =>
        have hk : k = p.1 := by simpa using hkp
        subst hk
        simp [List.lookup]
      | false =>
        rw [lookup_cons_ne k p _ hkp, lookup_cons_ne k p _ hkp]
        exact ih

/-- Fields other than the identifier fields are untouched by
normalization. -/
theorem getF_normalizeDoc_ne (d : Doc) (k : String)
    (h1 : k ≠ "id") (h2 : k ≠ "_id") :
    getF (normalizeDoc d) k = getF d k := by
  unfold normalizeDoc
  cases h : getF d "_id" with
  | none => rfl
  | some v =>
    show List.lookup k _ = _
    rw [lookup_setF_ne _ _ _ _ h1, lookup_filterKey_ne _ _ _ h2]
    rfl

/-- Normalization installs the string form of the identifier under `id`. -/
theorem getF_normalizeDoc_id (d : Doc) (v : Value)
    (h : getF d "_id" = some v) :
    getF (normalizeDoc d) "id" = some (.str (strForm v)) := by
  unfold normalizeDoc
  rw [h]
  exact lookup_setF_self _ _ _

/-- Normalization removes the store-native `_id` field. -/
theorem getF_normalizeDoc_noOid (d : Doc) (v : Value)
    (h : getF d "_id" = some v) :
    getF (normalizeDoc d) "_id" = none := by
  unfold normalizeDoc
  rw [h]
  show List.lookup _ _ = _
  rw [lookup_setF_ne _ _ _ _ (by decide)]
  exact lookup_filterKey_self _ _

/-- Normalizing a freshly inserted document (identifier in front, no
identifier-named fields in the payload) keeps every payload field
unchanged, in order, and appends the string identifier. -/
theorem normalizeDoc_insert (doc : Doc) (id : String)
    (h1 : ∀ p ∈ doc, p.1 ≠ "_id") (h2 : ∀ p ∈ doc, p.1 ≠ "id") :
    normalizeDoc (("_id", .oid id) :: doc) = doc ++ [("id", .str id)] := by
  unfold normalizeDoc
  have hid : getF (("_id", .oid id) :: doc) "_id" = some (.oid id) := by
    simp [getF, List.lookup]
  rw [hid]
  have hfilter : (("_id", .oid id) :: doc).filter (fun p => !(p.1 == "_id")) = doc := by
    simp only [List.filter, beq_self_eq_true, Bool.not_true]
    exact List.filter_eq_self.mpr (fun p hp => by simpa using h1 p hp)
  rw [hfilter]
  have hany : doc.any (fun p => p.1 == "id") = false := by
    rw [List.any_eq_false]
    intro p hp
    simpa using h2 p hp
  unfold setF
  rw [hany]
  rfl

/-! ## Endpoint-shape and filter lemmas -/

theorem bind_ok {α β : Type} (a : α) (f : α → VResult β) :
    (Except.ok a >>= f) = f a := rfl

theorem bind_err {α β : Type} (e : String) (f : α → VResult β) :
    ((Except.error e : VResult α) >>= f) = .error e := rfl

theorem list_products_eq (st : Store) (q c b : Option String)
    (mn mx : Option Rat) (lim : Nat) :
    list_products (some st) q c b mn mx lim =
      .ok ((((st "product").filter
        (fun d => docMatches d (buildProductQuery q c b mn mx))).take lim).map
          normalizeDoc) := rfl

theorem list_categories_eq (st : Store) (lim : Nat) :
    list_categories (some st) lim =
      .ok ((((st "category").filter (fun d => docMatches d [])).take lim).map
        normalizeDoc) := rfl

theorem get_wishlist_eq (st : Store) (ue : String) (lim : Nat) :
    get_wishlist (some st) (some ue) lim =
      .ok ((((st "wishlist").filter
        (fun d => docMatches d [("user_email", .eqStr ue)])).take lim).map
          normalizeDoc) := rfl

theorem list_orders_eq (st : Store) (ue : String) (lim : Nat) :
    list_orders (some st) (some ue) lim =
      .ok ((((st "order").filter
        (fun d => docMatches d [("user_email", .eqStr ue)])).take lim).map
          normalizeDoc) := rfl

/-- Membership in a list endpoint's output comes from a stored document
that matched the filter. -/
theorem mem_filterTakeMap {l : List Doc} {f : Doc → Bool} {lim : Nat} {d : Doc}
    (hd : d ∈ ((l.filter f).take lim).map normalizeDoc) :
    ∃ d0, d0 ∈ l ∧ f d0 = true ∧ d = normalizeDoc d0 := by
  obtain ⟨d0, hmem, hde⟩ := List.mem_map.mp hd
  have hfil : d0 ∈ l.filter f := List.mem_of_mem_take hmem
  exact ⟨d0, (List.mem_filter.mp hfil).1, (List.mem_filter.mp hfil).2, hde.symm⟩

/-- A document matching a filter satisfies each of the filter's
conditions. -/
theorem docMatches_mem {d : Doc} {Q : Query} (h : docMatches d Q = true)
    {k : String} {c : Cond} (hm : (k, c) ∈ Q) :
    ∃ v, getF d k = some v ∧ condMatches c v = true := by
  unfold docMatches at h
  rw [List.all_eq_true] at h
  have hkc := h (k, c) hm
  cases hv : getF d k with
  | none => rw [hv] at hkc; cases hkc
  | some v =>
    rw [hv] at hkc
    exact ⟨v, rfl, hkc⟩

/-- A value satisfying a two-sided range condition is a number inside the
(inclusive) bounds. -/
theorem condMatches_range_both {v : Value} {a b : Rat}
    (h : condMatches (.range (some a) (some b)) v = true) :
    ∃ x, v = .num x ∧ a ≤ x ∧ x ≤ b := by
  cases v with
  | num x =>
    simp only [condMatches, Bool.and_eq_true, decide_eq_true_eq] at h
    exact ⟨x, rfl, h.1, h.2⟩
  | str s => cases h
  | bool bb => cases h
  | null => cases h
  | arr vs => cases h
  | obj fs => cases h
  | oid s => cases h

/-- With both price bounds supplied, the built filter carries the combined
range condition on `price` (whatever the other parameters are). -/
theorem buildProductQuery_mem_range (q c b : Option String) (a bb : Rat) :
    ("price", Cond.range (some a) (some bb)) ∈
      buildProductQuery q c b (some a) (some bb) :=
  List.mem_append.mpr (Or.inr (List.Mem.head _))

/-- A document matching a one-entry range filter on `price` holds a number
inside the (inclusive) bounds. -/
theorem docMatches_range_both {d : Doc} {a b : Rat}
    (h : docMatches d [("price", .range (some a) (some b))] = true) :
    ∃ x, getF d "price" = some (.num x) ∧ a ≤ x ∧ x ≤ b := by
  unfold docMatches at h
  simp only [List.all_cons, List.all_nil, Bool.and_true] at h
  cases hv : getF d "price" with
  | none => rw [hv] at h; cases h
  | some v =>
    rw [hv] at h
    cases v with
    | num x =>
      simp only [condMatches, Bool.and_eq_true, decide_eq_true_eq] at h
      exact ⟨x, rfl, h.1, h.2⟩
    | str s => cases h
    | bool bb => cases h
    | null => cases h
    | arr vs => cases h
    | obj fs => cases h
    | oid s => cases h

/-- A document matching a one-entry exact-match filter holds exactly the
queried string. -/
theorem docMatches_eqStr {d : Doc} {k s : String}
    (h : docMatches d [(k, .eqStr s)] = true) :
    getF d k = some (.str s) := by
  unfold docMatches at h
  simp only [List.all_cons, List.all_nil, Bool.and_true] at h
  cases hv : getF d k with
  | none => rw [hv] at h; cases h
  | some v =>
    rw [hv] at h
    cases v with
    | str t =>
      simp only [condMatches, beq_iff_eq] at h
      rw [h]
    | num x => cases h
    | bool bb => cases h
    | null => cases h
    | arr vs => cases h
    | obj fs => cases h
    | oid ss => cases h

/-- A payload whose `price` field holds a negative number never validates
against the `Product` schema. -/
theorem validate_error_neg_price (d : Doc) (x : Rat)
    (hp : getF d "price" = some (.num x)) (hx : x < 0) :
    ∃ e, Product.validate d = .error e := by
  unfold Product.validate
  cases h1 : reqStr d "title" with
  | error e => exact ⟨e, rfl⟩
  | ok t =>
    cases h2 : optStr d "description" with
    | error e => exact ⟨e, rfl⟩
    | ok dsc =>
      have h3 : reqNum d "price" = .ok x := by
        unfold reqNum
        rw [hp]
      simp only [h3, bind_ok]
      rw [if_pos hx]
      exact ⟨_, rfl⟩

/-- C1: with a negative price, `create_product` fails with the schema
validation error for any store state — in particular the store is never
touched and nothing is inserted (success is the only outcome that carries
a new store state). -/
theorem create_product_rejects_negative_price (db : Option Store)
    (payload : Doc) (x : Rat)
    (hp : getF payload "price" = some (.num x)) (hx : x < 0) :
    ∃ e, Product.validate payload = .error e ∧
      create_product db payload = .error (.validation e) := by
  obtain ⟨e, he⟩ := validate_error_neg_price payload x hp hx
  refine ⟨e, he, ?_⟩
  unfold create_product
  rw [he]

/-- C1 witness: a concrete negative-price payload is rejected, with the
store unavailable and empty alike. -/
theorem create_product_rejects_negative_price_witness :
    ∃ e, Product.validate
        [("title", .str "Widget"), ("price", .num (-1)),
         ("category", .str "tools")] = .error e ∧
      create_product (some Store.empty)
        [("title", .str "Widget"), ("price", .num (-1)),
         ("category", .str "tools")] = .error (.validation e) :=
  create_product_rejects_negative_price (some Store.empty)
    [("title", .str "Widget"), ("price", .num (-1)), ("category", .str "tools")]
    (-1) rfl (by decide)

/-! ## Price-range filtering (C2) -/

/-- A stored product document as the store holds it (identifier included). -/
def productDoc (id t : String) (pr : Rat) : Doc :=
  [("_id", .oid id), ("title", .str t), ("price", .num pr),
   ("category", .str "general")]

/-- A store holding five products priced 9.99, 10, 15, 20 and 20.01. -/
def rangeStore : Store := fun c =>
  if c == "product" then
    [productDoc "a" "A" (mkRat 999 100), productDoc "b" "B" 10,
     productDoc "c" "C" 15, productDoc "d" "D" 20,
     productDoc "e" "E" (mkRat 2001 100)]
  else []

/-- The normalized product priced 10, as returned to the client. -/
def rangeWitnessDoc : Doc :=
  [("title", .str "B"), ("price", .num 10), ("category", .str "general"),
   ("id", .str "b")]

/-- What `list_products(min_price=10, max_price=20)` returns on
`rangeStore`: the products priced 10, 15 and 20 — 9.99 and 20.01 excluded. -/
def rangeListed : List Doc :=
  rangeWitnessDoc ::
  [[("title", .str "C"), ("price", .num 15), ("category", .str "general"),
    ("id", .str "c")],
   [("title", .str "D"), ("price", .num 20), ("category", .str "general"),
    ("id", .str "d")]]

/-- C2: with both bounds supplied every returned product's price lies in
the inclusive range, the two parameters form one range condition on the
`price` field, and on a concrete store with `min_price=10, max_price=20`
the products priced 9.99 and 20.01 are excluded. -/
theorem list_products_price_range (st : Store) (q c bp : Option String)
    (a b : Rat) (lim : Nat) (items : List Doc)
    (h : list_products (some st) q c bp (some a) (some b) lim = .ok items)
    (d : Doc) (hd : d ∈ items) :
    (∃ x, getF d "price" = some (.num x) ∧ a ≤ x ∧ x ≤ b) ∧
    buildProductQuery none none none (some a) (some b) =
      [("price", .range (some a) (some b))] ∧
    list_products (some rangeStore) none none none (some 10) (some 20) 50 =
      .ok rangeListed := by
  refine ⟨?_, rfl, rfl⟩
  rw [list_products_eq] at h
  injection h with h'
  subst h'
  obtain ⟨d0, _, hf, hde⟩ := mem_filterTakeMap hd
  obtain ⟨v, hv, hc⟩ := docMatches_mem hf (buildProductQuery_mem_range q c bp a b)
  obtain ⟨x, hxv, hax, hxb⟩ := condMatches_range_both hc
  refine ⟨x, ?_, hax, hxb⟩
  rw [hde, getF_normalizeDoc_ne d0 "price" (by decide) (by decide), hv, hxv]

/-- C2 witness: on the concrete store the returned product priced 10 is in
range. -/
theorem list_products_price_range_witness :
    (∃ x, getF rangeWitnessDoc "price" = some (.num x) ∧
      (10 : Rat) ≤ x ∧ x ≤ 20) ∧
    buildProductQuery none none none (some 10) (some 20) =
      [("price", .range (some 10) (some 20))] ∧
    list_products (some rangeStore) none none none (some 10) (some 20) 50 =
      .ok rangeListed :=
  list_products_price_range rangeStore none none none 10 20 50 rangeListed rfl
    rangeWitnessDoc (List.Mem.head _)

/-! ## Case-insensitive title search (C3) -/

/-- The predicate the text search applies to a stored document: its
`title` holds a string of which the query is a case-insensitive
substring. -/
def titleMatchCI (q : String) (d : Doc) : Bool :=
  match getF d "title" with
  | some (.str t) => containsCI t q
  | _ => false

theorem docMatches_regexI_title (q : String) (d : Doc) :
    docMatches d [("title", .regexI q)] = titleMatchCI q d := by
  unfold docMatches titleMatchCI
  simp only [List.all_cons, List.all_nil, Bool.and_true]
  cases getF d "title" with
  | none => rfl
  | some v => cases v <;> rfl

/-- A store holding products titled "Blue Shirt", "SHIRTS" and "Pants". -/
def shirtStore : Store := fun c =>
  if c == "product" then
    [[("_id", .oid "s1"), ("title", .str "Blue Shirt"), ("price", .num 10),
      ("category", .str "apparel")],
     [("_id", .oid "s2"), ("title", .str "SHIRTS"), ("price", .num 12),
      ("category", .str "apparel")],
     [("_id", .oid "s3"), ("title", .str "Pants"), ("price", .num 15),
      ("category", .str "apparel")]]
  else []

/-- What `list_products(q="shirt")` returns on `shirtStore`: "Blue Shirt"
and "SHIRTS" match, "Pants" does not. -/
def shirtListed : List Doc :=
  [[("title", .str "Blue Shirt"), ("price", .num 10),
    ("category", .str "apparel"), ("id", .str "s1")],
   [("title", .str "SHIRTS"), ("price", .num 12),
    ("category", .str "apparel"), ("id", .str "s2")]]

/-- C3: with a (non-empty) text query, `list_products` returns exactly the
stored products whose title contains the query case-insensitively (up to
the limit cap); "shirt" matches "Blue Shirt" and "SHIRTS" but not
"Pants". -/
theorem list_products_text_search (st : Store) (q : String) (hq : ¬(q = ""))
    (lim : Nat) :
    list_products (some st) (some q) none none none none lim =
      .ok ((((st "product").filter (titleMatchCI q)).take lim).map
        normalizeDoc) ∧
    containsCI "Blue Shirt" "shirt" = true ∧
    containsCI "SHIRTS" "shirt" = true ∧
    containsCI "Pants" "shirt" = false ∧
    list_products (some shirtStore) (some "shirt") none none none none 50 =
      .ok shirtListed := by
  refine ⟨?_, by decide, by decide, by decide, rfl⟩
  rw [list_products_eq]
  have hbq : buildProductQuery (some q) none none none none =
      [("title", .regexI q)] := by
    unfold buildProductQuery
    simp [hq]
  rw [hbq]
  have hfil : (st "product").filter (fun d => docMatches d [("title", .regexI q)]) =
      (st "product").filter (titleMatchCI q) :=
    List.filter_congr (fun d _ => docMatches_regexI_title q d)
  rw [hfil]

/-- C3 witness: instantiated on the concrete store with query "shirt". -/
theorem list_products_text_search_witness :
    list_products (some shirtStore) (some "shirt") none none none none 50 =
      .ok ((((shirtStore "product").filter (titleMatchCI "shirt")).take 50).map
        normalizeDoc) ∧
    containsCI "Blue Shirt" "shirt" = true ∧
    containsCI "SHIRTS" "shirt" = true ∧
    containsCI "Pants" "shirt" = false ∧
    list_products (some shirtStore) (some "shirt") none none none none 50 =
      .ok shirtListed :=
  list_products_text_search shirtStore "shirt" (by decide) 50

/-! ## Identifier normalization and the create-then-list round trip (C4) -/

/-- A valid product payload exercising every field. -/
def sampleProductPayload : Doc :=
  [("title", .str "Mug"), ("description", .str "Ceramic mug"),
   ("price", .num 7), ("category", .str "kitchen"), ("brand", .str "Acme"),
   ("image", .null), ("in_stock", .bool true)]

/-- Create a product in an empty store, then list all products from the
resulting store. -/
def createThenList (payload : Doc) : Except ApiError (List Doc) :=
  match create_product (some Store.empty) payload with
  | .ok (_, st) => list_products (some st) none none none none none 50
  | .error e => .error e

/-- The round-trip result for `sampleProductPayload`: every non-identifier
field unchanged, plus the string `id`. -/
def sampleListedDoc : Doc :=
  [("title", .str "Mug"), ("description", .str "Ceramic mug"),
   ("price", .num 7), ("category", .str "kitchen"), ("brand", .str "Acme"),
   ("image", .null), ("in_stock", .bool true), ("id", .str "0")]

/-- C4: every listed document has the store-native `_id` removed and a
string `id` field holding its string form, every other field is returned
unchanged; each list operation applies exactly this normalization to the
matching stored documents; and a create-then-list round trip returns the
created document's fields unchanged plus the `id`. -/
theorem identifier_normalization (d : Doc) (v : Value)
    (hid : getF d "_id" = some v)
    (k : String) (hk1 : k ≠ "id") (hk2 : k ≠ "_id")
    (doc : Doc) (id : String)
    (h1 : ∀ p ∈ doc, p.1 ≠ "_id") (h2 : ∀ p ∈ doc, p.1 ≠ "id")
    (st : Store) (ue : String) (lim : Nat) :
    getF (normalizeDoc d) "_id" = none ∧
    getF (normalizeDoc d) "id" = some (.str (strForm v)) ∧
    getF (normalizeDoc d) k = getF d k ∧
    normalizeDoc (("_id", .oid id) :: doc) = doc ++ [("id", .str id)] ∧
    list_products (some st) none none none none none lim =
      .ok ((((st "product").filter
        (fun d0 => docMatches d0 (buildProductQuery none none none none none))).take
          lim).map normalizeDoc) ∧
    list_categories (some st) lim =
      .ok ((((st "category").filter (fun d0 => docMatches d0 [])).take lim).map
        normalizeDoc) ∧
    get_wishlist (some st) (some ue) lim =
      .ok ((((st "wishlist").filter
        (fun d0 => docMatches d0 [("user_email", .eqStr ue)])).take lim).map
          normalizeDoc) ∧
    list_orders (some st) (some ue) lim =
      .ok ((((st "order").filter
        (fun d0 => docMatches d0 [("user_email", .eqStr ue)])).take lim).map
          normalizeDoc) ∧
    createThenList sampleProductPayload = .ok [sampleListedDoc] :=
  ⟨getF_normalizeDoc_noOid d v hid, getF_normalizeDoc_id d v hid,
   getF_normalizeDoc_ne d k hk1 hk2, normalizeDoc_insert doc id h1 h2,
   rfl, rfl, rfl, rfl, rfl⟩

/-- C4 witness: instantiated on a concrete document and payload. -/
theorem identifier_normalization_witness :
    getF (normalizeDoc [("_id", .oid "w"), ("title", .str "T")]) "_id" = none ∧
    getF (normalizeDoc [("_id", .oid "w"), ("title", .str "T")]) "id" =
      some (.str (strForm (.oid "w"))) ∧
    getF (normalizeDoc [("_id", .oid "w"), ("title", .str "T")]) "title" =
      getF [("_id", .oid "w"), ("title", .str "T")] "title" ∧
    normalizeDoc (("_id", .oid "9") :: [("x", .null)]) =
      [("x", .null)] ++ [("id", .str "9")] ∧
    list_products (some Store.empty) none none none none none 7 =
      .ok ((((Store.empty "product").filter
        (fun d0 => docMatches d0 (buildProductQuery none none none none none))).take
          7).map normalizeDoc) ∧
    list_categories (some Store.empty) 7 =
      .ok ((((Store.empty "category").filter
        (fun d0 => docMatches d0 [])).take 7).map normalizeDoc) ∧
    get_wishlist (some Store.empty) (some "u@v") 7 =
      .ok ((((Store.empty "wishlist").filter
        (fun d0 => docMatches d0 [("user_email", .eqStr "u@v")])).take 7).map
          normalizeDoc) ∧
    list_orders (some Store.empty) (some "u@v") 7 =
      .ok ((((Store.empty "order").filter
        (fun d0 => docMatches d0 [("user_email", .eqStr "u@v")])).take 7).map
          normalizeDoc) ∧
    createThenList sampleProductPayload = .ok [sampleListedDoc] :=
  identifier_normalization [("_id", .oid "w"), ("title", .str "T")] (.oid "w")
    rfl "title" (by decide) (by decide) [("x", .null)] "9"
    (by decide) (by decide) Store.empty "u@v" 7

/-! ## Store unavailability surfaces as 5xx on every data endpoint (C5) -/

/-- The validated model of `sampleProductPayload`. -/
def sampleProduct : Product :=
  { title := "Mug", description := some "Ceramic mug", price := 7,
    category := "kitchen", brand := some "Acme", image := none,
    in_stock := true }

/-- A valid category payload. -/
def sampleCategoryPayload : Doc :=
  [("name", .str "Tools"), ("slug", .str "tools")]

/-- A valid wishlist payload. -/
def sampleWishlistPayload : Doc :=
  [("user_email", .str "a@b.com"), ("product_id", .str "p1")]

/-- A valid order payload with one item. -/
def sampleOrderPayload : Doc :=
  [("user_email", .str "a@b.com"), ("shipping_address", .str "1 Main St"),
   ("payment_method", .str "online"),
   ("items", .arr [.obj [("product_id", .str "p1"), ("title", .str "Mug"),
     ("price", .num 7), ("quantity", .num 2)]]),
   ("total", .num 14)]

/-- The validated model of `sampleOrderPayload`. -/
def sampleOrder : Order :=
  { user_email := "a@b.com", shipping_address := "1 Main St",
    payment_method := "online", status := "pending",
    items := [{ product_id := "p1", title := "Mug", price := 7, quantity := 2 }],
    total := 14 }

/-- C5: with the store connection never established (`db` is `None`),
every data endpoint — the four list operations with any parameters, and
the four create operations on any payload that passes validation — fails
with a 5xx-class error instead of succeeding or crashing. -/
theorem store_unavailable_is_5xx (q c b : Option String) (mn mx : Option Rat)
    (lim : Nat) (ue : String) (plP plC plW plO : Doc)
    (p : Product) (cat : Category) (w : Wishlist) (o : Order)
    (hP : Product.validate plP = .ok p)
    (hC : Category.validate plC = .ok cat)
    (hW : Wishlist.validate plW = .ok w)
    (hO : Order.validate plO = .ok o) :
    (∃ e, list_products none q c b mn mx lim = .error e ∧
      500 ≤ e.statusCode ∧ e.statusCode < 600) ∧
    (∃ e, list_categories none lim = .error e ∧
      500 ≤ e.statusCode ∧ e.statusCode < 600) ∧
    (∃ e, get_wishlist none (some ue) lim = .error e ∧
      500 ≤ e.statusCode ∧ e.statusCode < 600) ∧
    (∃ e, list_orders none (some ue) lim = .error e ∧
      500 ≤ e.statusCode ∧ e.statusCode < 600) ∧
    (∃ e, create_product none plP = .error e ∧
      500 ≤ e.statusCode ∧ e.statusCode < 600) ∧
    (∃ e, create_category none plC = .error e ∧
      500 ≤ e.statusCode ∧ e.statusCode < 600) ∧
    (∃ e, add_to_wishlist none plW = .error e ∧
      500 ≤ e.statusCode ∧ e.statusCode < 600) ∧
    (∃ e, create_order none plO = .error e ∧
      500 ≤ e.statusCode ∧ e.statusCode < 600) := by
  refine ⟨⟨.http 500 "Database unavailable", rfl, by decide, by decide⟩,
    ⟨.store .unavailable, rfl, by decide, by decide⟩,
    ⟨.store .unavailable, rfl, by decide, by decide⟩,
    ⟨.store .unavailable, rfl, by decide, by decide⟩,
    ⟨.store .unavailable, ?_, by decide, by decide⟩,
    ⟨.store .unavailable, ?_, by decide, by decide⟩,
    ⟨.store .unavailable, ?_, by decide, by decide⟩,
    ⟨.store .unavailable, ?_, by decide, by decide⟩⟩
  · unfold create_product
    rw [hP]
    rfl
  · unfold create_category
    rw [hC]
    rfl
  · unfold add_to_wishlist
    rw [hW]
    rfl
  · unfold create_order
    rw [hO]
    rfl

/-- C5 witness: instantiated with concrete parameters and concrete valid
payloads for each create endpoint. -/
theorem store_unavailable_is_5xx_witness :
    (∃ e, list_products none (some "mug") none none (some 1) (some 2) 50 =
        .error e ∧ 500 ≤ e.statusCode ∧ e.statusCode < 600) ∧
    (∃ e, list_categories none 100 = .error e ∧
      500 ≤ e.statusCode ∧ e.statusCode < 600) ∧
    (∃ e, get_wishlist none (some "a@b.com") 100 = .error e ∧
      500 ≤ e.statusCode ∧ e.statusCode < 600) ∧
    (∃ e, list_orders none (some "a@b.com") 50 = .error e ∧
      500 ≤ e.statusCode ∧ e.statusCode < 600) ∧
    (∃ e, create_product none sampleProductPayload = .error e ∧
      500 ≤ e.statusCode ∧ e.statusCode < 600) ∧
    (∃ e, create_category none sampleCategoryPayload = .error e ∧
      500 ≤ e.statusCode ∧ e.statusCode < 600) ∧
    (∃ e, add_to_wishlist none sampleWishlistPayload = .error e ∧
      500 ≤ e.statusCode ∧ e.statusCode < 600) ∧
    (∃ e, create_order none sampleOrderPayload = .error e ∧
      500 ≤ e.statusCode ∧ e.statusCode < 600) :=
  store_unavailable_is_5xx (some "mug") none none (some 1) (some 2) 50
    "a@b.com" sampleProductPayload sampleCategoryPayload
    sampleWishlistPayload sampleOrderPayload
    sampleProduct { name := "Tools", slug := "tools" }
    { user_email := "a@b.com", product_id := "p1" } sampleOrder
    rfl rfl rfl rfl

/-! ## The diagnostic endpoint never propagates errors (C6) -/

/-- C6: `/test` always answers 200 with a descriptive payload — for every
store state, including one whose collection listing raises — the caught
failure is reported in the `database` status string with the error message
truncated to at most 50 characters, and an entirely unconfigured store
yields the unavailable-state message. -/
theorem test_database_never_errors (ds : Option DiagStore) (u n : Bool)
    (d : DiagStore) (e : String) (he : d.listCollectionNames = .error e) :
    test_database_route ds u n = .ok (test_database ds u n) ∧
    respStatus (test_database_route ds u n) = 200 ∧
    (test_database (some d) u n).database =
      "⚠️  Connected but Error: " ++ truncate50 e ∧
    (truncate50 e).length ≤ 50 ∧
    (test_database none u n).database = "⚠️  Available but not initialized" := by
  refine ⟨rfl, rfl, ?_, ?_, rfl⟩
  · simp only [test_database, he]
  · show (String.mk (e.data.take 50)).length ≤ 50
    have hlen : (String.mk (e.data.take 50)).length = (e.data.take 50).length := rfl
    rw [hlen, List.length_take]
    exact min_le_left _ _

/-- C6 witness: a store whose collection listing raises, and the
unconfigured store. -/
theorem test_database_never_errors_witness :
    test_database_route none false false = .ok (test_database none false false) ∧
    respStatus (test_database_route none false false) = 200 ∧
    (test_database
        (some { dbName := none, listCollectionNames := .error "boom" })
        false false).database = "⚠️  Connected but Error: " ++ truncate50 "boom" ∧
    (truncate50 "boom").length ≤ 50 ∧
    (test_database none false false).database =
      "⚠️  Available but not initialized" :=
  test_database_never_errors none false false
    { dbName := none, listCollectionNames := .error "boom" } "boom" rfl

/-! ## Wishlist: required user_email and exact matching (C7) -/

/-- A store with wishlist entries for "a@b.com", "A@B.com" (different
case) and "xa@b.com" (superstring). -/
def wishStore : Store := fun c =>
  if c == "wishlist" then
    [[("_id", .oid "w1"), ("user_email", .str "a@b.com"),
      ("product_id", .str "p1")],
     [("_id", .oid "w2"), ("user_email", .str "A@B.com"),
      ("product_id", .str "p2")],
     [("_id", .oid "w3"), ("user_email", .str "xa@b.com"),
      ("product_id", .str "p3")]]
  else []

/-- The single entry returned for `user_email="a@b.com"`: the exact match
only — neither the case variant nor the superstring. -/
def wishWitnessDoc : Doc :=
  [("user_email", .str "a@b.com"), ("product_id", .str "p1"),
   ("id", .str "w1")]

def wishListed : List Doc := [wishWitnessDoc]

/-- C7: `get_wishlist` without `user_email` fails with a ValidationError
(422); with it, every returned entry's stored `user_email` is exactly the
supplied string — on the concrete store, "A@B.com" and "xa@b.com" are not
returned for "a@b.com". -/
theorem get_wishlist_exact_email (db : Option Store) (lim lim2 : Nat)
    (st : Store) (ue : String) (items : List Doc)
    (h : get_wishlist (some st) (some ue) lim2 = .ok items)
    (d : Doc) (hd : d ∈ items) :
    (∃ msg, get_wishlist db none lim = .error (.validation msg) ∧
      (ApiError.validation msg).statusCode = 422) ∧
    getF d "user_email" = some (.str ue) ∧
    get_wishlist (some wishStore) (some "a@b.com") 100 = .ok wishListed := by
  refine ⟨⟨"user_email: field required", rfl, rfl⟩, ?_, rfl⟩
  rw [get_wishlist_eq] at h
  injection h with h'
  subst h'
  obtain ⟨d0, _, hf, hde⟩ := mem_filterTakeMap hd
  have h0 := docMatches_eqStr (d := d0) (k := "user_email") (s := ue) hf
  rw [hde, getF_normalizeDoc_ne d0 "user_email" (by decide) (by decide)]
  exact h0

/-- C7 witness: instantiated on the concrete store. -/
theorem get_wishlist_exact_email_witness :
    (∃ msg, get_wishlist none none 100 = .error (.validation msg) ∧
      (ApiError.validation msg).statusCode = 422) ∧
    getF wishWitnessDoc "user_email" = some (.str "a@b.com") ∧
    get_wishlist (some wishStore) (some "a@b.com") 100 = .ok wishListed :=
  get_wishlist_exact_email none 100 100 wishStore "a@b.com" wishListed rfl
    wishWitnessDoc (List.Mem.head _)

/-! ## Order creation: payment_method and empty item lists (C8, C9) -/

/-- The identifier returned by a successful create operation. -/
def createdId : Except ApiError (String × Store) → Option String
  | .ok (i, _) => some i
  | .error _ => none

/-- The number of documents in a collection after a create operation. -/
def collCount (coll : String) : Except ApiError (String × Store) → Option Nat
  | .ok (_, st) => some (st coll).length
  | .error _ => none

/-- An order payload whose `payment_method` is neither "online" nor
"cod". -/
def paypalOrderPayload : Doc :=
  [("user_email", .str "a@b.com"), ("shipping_address", .str "1 Main St"),
   ("payment_method", .str "paypal"),
   ("items", .arr [.obj [("product_id", .str "p1"), ("title", .str "Mug"),
     ("price", .num 7), ("quantity", .num 2)]]),
   ("total", .num 14)]

/-- The model `paypalOrderPayload` validates to. -/
def paypalOrder : Order :=
  { user_email := "a@b.com", shipping_address := "1 Main St",
    payment_method := "paypal", status := "pending",
    items := [{ product_id := "p1", title := "Mug", price := 7, quantity := 2 }],
    total := 14 }

/-- C8: the `Order` shape does NOT reject other `payment_method` strings —
a payload with `payment_method="paypal"` passes full validation, and
`create_order` succeeds and inserts the document.  (The schema field is a
plain string whose description merely documents "online | cod".) -/
theorem create_order_accepts_paypal :
    Order.validate paypalOrderPayload = .ok paypalOrder ∧
    paypalOrder.payment_method = "paypal" ∧
    paypalOrder.payment_method ≠ "online" ∧
    paypalOrder.payment_method ≠ "cod" ∧
    createdId (create_order (some Store.empty) paypalOrderPayload) = some "0" ∧
    collCount "order" (create_order (some Store.empty) paypalOrderPayload) =
      some 1 :=
  ⟨rfl, rfl, by decide, by decide, rfl, rfl⟩

/-- An order payload with an empty items list, valid in every other
field. -/
def emptyItemsOrderPayload : Doc :=
  [("user_email", .str "a@b.com"), ("shipping_address", .str "1 Main St"),
   ("payment_method", .str "cod"), ("items", .arr []), ("total", .num 0)]

/-- The model `emptyItemsOrderPayload` validates to. -/
def emptyItemsOrder : Order :=
  { user_email := "a@b.com", shipping_address := "1 Main St",
    payment_method := "cod", status := "pending", items := [], total := 0 }

/-- C9: `Order` validation imposes no non-emptiness constraint on `items`
— a payload with `items = []` validates and `create_order` inserts it —
while each present item is held to its type, `price ≥ 0` and
`quantity ≥ 1` constraints. -/
theorem create_order_accepts_empty_items :
    Order.validate emptyItemsOrderPayload = .ok emptyItemsOrder ∧
    emptyItemsOrder.items = [] ∧
    createdId (create_order (some Store.empty) emptyItemsOrderPayload) =
      some "0" ∧
    collCount "order" (create_order (some Store.empty) emptyItemsOrderPayload) =
      some 1 ∧
    (∀ d i, OrderItem.validate d = .ok i → 0 ≤ i.price ∧ 1 ≤ i.quantity) := by
  refine ⟨rfl, rfl, rfl, rfl, ?_⟩
  intro d i h
  unfold OrderItem.validate at h
  cases h1 : reqStr d "product_id" with
  | error e => simp [h1] at h
  | ok pid =>
    rw [h1] at h
    dsimp only at h
    cases h2 : reqStr d "title" with
    | error e => simp [h2] at h
    | ok ttl =>
      rw [h2] at h
      dsimp only at h
      cases h3 : reqNum d "price" with
      | error e => simp [h3] at h
      | ok x =>
        rw [h3] at h
        dsimp only at h
        by_cases hx : x < 0
        · rw [if_pos hx] at h; cases h
        · rw [if_neg hx] at h
          cases h4 : reqInt d "quantity" with
          | error e => simp [h4] at h
          | ok qn =>
            rw [h4] at h
            dsimp only at h
            by_cases hq : qn < 1
            · rw [if_pos hq] at h; cases h
            · rw [if_neg hq] at h
              injection h with h'
              subst h'
              exact ⟨le_of_not_lt hx, le_of_not_lt hq⟩

/-- C9 witness: the per-item constraints instantiated on a concrete valid
item. -/
theorem create_order_accepts_empty_items_witness :
    0 ≤ (OrderItem.mk "p1" "Mug" 7 2).price ∧
    1 ≤ (OrderItem.mk "p1" "Mug" 7 2).quantity :=
  create_order_accepts_empty_items.2.2.2.2
    [("product_id", .str "p1"), ("title", .str "Mug"), ("price", .num 7),
     ("quantity", .num 2)]
    (OrderItem.mk "p1" "Mug" 7 2) rfl

/-! ## Truthiness of filter parameters (C10) -/

/-- C10: in `list_products` an empty string supplied for `q`, `category`
or `brand` contributes no filter (same query as an absent parameter),
whereas `min_price=0.0` or `max_price=0.0` does contribute a price-bound
condition — only `None` means "no constraint" for the numeric
parameters. -/
theorem empty_string_filters_dropped :
    (∀ c b mn mx, buildProductQuery (some "") c b mn mx =
      buildProductQuery none c b mn mx) ∧
    (∀ q b mn mx, buildProductQuery q (some "") b mn mx =
      buildProductQuery q none b mn mx) ∧
    (∀ q c mn mx, buildProductQuery q c (some "") mn mx =
      buildProductQuery q c none mn mx) ∧
    buildProductQuery none none none (some 0) none =
      [("price", .range (some 0) none)] ∧
    buildProductQuery none none none none (some 0) =
      [("price", .range none (some 0))] ∧
    buildProductQuery none none none none none = [] ∧
    condMatches (.range (some 0) none) (.num (-1)) = false :=
  ⟨fun _ _ _ _ => rfl, fun _ _ _ _ => rfl, fun _ _ _ _ => rfl,
   rfl, rfl, rfl, by decide⟩

end ShopApi
